import Mathlib

/-!
Shallow embedding of the dashboard polling controller and its helpers
(`DashboardContent` in the dashboard component source): the `fetchAnalyses`
polling cycle with its consecutive-failure connectivity heuristic, the
defensive category filter, the `handleDelete` and rerun handlers, the
`formatDate` positional slicing, and the search/sort view pipeline
(`filteredAndSortedAnalyses`).

JavaScript values are modelled as follows: strings are Lean `String`s
(compared code-unit-wise), possibly-absent string fields are `Option String`
(`none` = `undefined`), JS truthiness of a string field is `jsStrFalsy`
(absent or empty is falsy), thrown JS errors are `JsError` records carrying
`name` and `message`, and a handler body that may throw is a function into
`Except JsError _`, with the `catch` block applied explicitly.
-/

/-- A thrown JavaScript error, as observed by the catch blocks: its
constructor name (e.g. "TypeError", "AbortError") and its message. -/
structure JsError where
  name : String
  message : String
deriving DecidableEq, Repr

/-- One record of the `Analysis` interface of the dashboard component.
The TypeScript interface declares `analysis_type` as `string`, but the
fetch handler defends against it being absent in the JSON response, so it
is modelled as `Option String` (`none` = absent). The untyped `scores: any`
field is omitted; no modelled operation reads it. -/
structure Analysis where
  id : String
  timestamp : String
  dance_type : String
  dancers : String
  analysis_type : Option String
  processed : Bool
  status : Option String := none
  text : Option String := none
  video_url : Option String := none
  user_id : Option String := none
  total_score : Option String := none
deriving DecidableEq, Repr

/-- JS truthiness test (negated) for a possibly-absent string field:
`!x` is true exactly when the field is `undefined` or the empty string. -/
def jsStrFalsy : Option String → Bool
  | none => true
  | some s => s.isEmpty

/-- JS strict equality `x === t` between a possibly-absent string field and
a string literal: `undefined === t` is false. -/
def jsStrEq : Option String → String → Bool
  | none, _ => false
  | some s, t => s == t

/-- JS `x || d` for a possibly-absent string `x` and a string default `d`. -/
def jsOrDefault (x : Option String) (d : String) : String :=
  if jsStrFalsy x then d else x.getD ""

/-- Whether `needle` occurs at the start of `hay` (char lists). -/
def startsWithList : List Char → List Char → Bool
  | [], _ => true
  | _ :: _, [] => false
  | a :: as, b :: bs => a == b && startsWithList as bs

/-- JS `String.prototype.includes`: contiguous-substring test, modelled on
the char lists of the two strings. -/
def containsList (needle : List Char) : List Char → Bool
  | [] => startsWithList needle []
  | c :: t => startsWithList needle (c :: t) || containsList needle t

/-- JS `hay.includes(needle)` on Lean strings. -/
def containsSub (hay needle : String) : Bool :=
  containsList needle.toList hay.toList

/-- The local component state of `DashboardContent` that the polling cycle
reads and writes: the displayed list, the error banner, the connectivity
flag, and the consecutive-failure counter (`useState` initial values are
`mountState` below). -/
structure DashState where
  analyses : List Analysis
  error : Option String
  serverConnected : Bool
  consecutiveFailures : Nat
deriving DecidableEq, Repr

/-- The state at component mount: `useState([])`, `useState(null)`,
`useState(true)`, `useState(0)`. -/
def mountState : DashState :=
  { analyses := [], error := none, serverConnected := true, consecutiveFailures := 0 }

/-- Outcome of one network attempt inside `fetchAnalyses`: either the parsed
JSON array of a 2xx response, or the JS error thrown at the call site
(a rejected fetch, or the `Error` thrown on `!response.ok`). -/
inductive FetchOutcome where
  | success (data : List Analysis)
  | failure (e : JsError)
deriving DecidableEq, Repr

/-- The defensive re-filter applied to a successful response:
`data.filter(a => a.analysis_type === analysisType || (analysisType === "couple" && !a.analysis_type))`. -/
def filterByType (ty : String) (data : List Analysis) : List Analysis :=
  data.filter (fun a => jsStrEq a.analysis_type ty || (ty == "couple" && jsStrFalsy a.analysis_type))

/-- The error-message cascade of the `fetchAnalyses` catch block, branch for
branch in source order (default message "Failed to load analyses" when the
thrown error has an empty message). -/
def errorMessageFor (e : JsError) : String :=
  if e.name == "AbortError" then
    "Request timed out after 30 seconds. The server might be slow - please try again."
  else if e.name == "TypeError" && containsSub e.message "Failed to fetch" then
    "Backend server is currently unavailable. Please check if the server is running or try again later."
  else if containsSub e.message "Failed to fetch" then
    "Unable to connect to the backend server. Please check your connection or try again later."
  else if containsSub e.message "CORS" then
    "Server access issue. Please try refreshing the page."
  else if containsSub e.message "NetworkError" then
    "Network connection failed. Please check if the backend server is accessible."
  else if e.message.isEmpty then
    "Failed to load analyses"
  else
    e.message

/-- The try block of `fetchAnalyses`: on a 2xx response it filters the data
and performs `setAnalyses`, `setError(null)`, `setServerConnected(true)`,
`setConsecutiveFailures(0)`; a rejected fetch or `!response.ok` throws. -/
def fetchAnalysesTry (ty : String) (o : FetchOutcome) (s : DashState) : Except JsError DashState :=
  match o with
  | .success data =>
      .ok { s with
              analyses := filterByType ty data
              error := none
              serverConnected := true
              consecutiveFailures := 0 }
  | .failure e => .error e

/-- The catch block of `fetchAnalyses`. `cf` and `cc` are the values of
`consecutiveFailures` and `serverConnected` captured by the closure when it
was created (React state reads inside the handler are closure captures; only
the functional update `setConsecutiveFailures(prev => prev + 1)` reads the
live state). Source order: increment the counter, then
`if (consecutiveFailures >= 2) setServerConnected(false)`, then
`if (!serverConnected) setError(errorMessage)`. -/
def fetchAnalysesCatch (cf : Nat) (cc : Bool) (e : JsError) (s : DashState) : DashState :=
  let s1 := { s with consecutiveFailures := s.consecutiveFailures + 1 }
  let s2 := if cf ≥ 2 then { s1 with serverConnected := false } else s1
  if cc then s2 else { s2 with error := some (errorMessageFor e) }

/-- The whole of `fetchAnalyses` as try/catch: a `.error` result would be an
exception escaping the handler uncaught. -/
def fetchAnalysesRun (ty : String) (cf : Nat) (cc : Bool) (o : FetchOutcome) (s : DashState) :
    Except JsError DashState :=
  match fetchAnalysesTry ty o s with
  | .ok s1 => .ok s1
  | .error e => .ok (fetchAnalysesCatch cf cc e s)

/-- The state transition of one `fetchAnalyses` invocation (the handler never
rethrows, so the fallback branch is unreachable). -/
def fetchAnalysesStep (ty : String) (cf : Nat) (cc : Bool) (o : FetchOutcome) (s : DashState) :
    DashState :=
  match fetchAnalysesRun ty cf cc o s with
  | .ok s1 => s1
  | .error _ => s

/-- The polling cycle started by the `[analysisType]` effect at mount: the
effect calls `fetchAnalyses` once and registers it with `setInterval`. That
single closure is created at the mount render, so every timer invocation
reads the captured mount values `consecutiveFailures = 0`,
`serverConnected = true`, while the live state evolves. -/
def pollRun (ty : String) (outcomes : List FetchOutcome) : DashState :=
  outcomes.foldl (fun s o => fetchAnalysesStep ty 0 true o s) mountState

/-- The category a response entry is treated as belonging to: a falsy
(absent or empty) `analysis_type` counts as the default category "couple". -/
def effectiveCategory (a : Analysis) : String :=
  if jsStrFalsy a.analysis_type then "couple" else a.analysis_type.getD ""

/-- An event observed by the polling controller: a timer tick that invokes
`fetchAnalyses` with some network outcome, or the effect cleanup running
`clearInterval`. -/
inductive PollEvent where
  | tick (o : FetchOutcome)
  | stop
deriving DecidableEq, Repr

/-- Controller state: the component state, the number of timer-initiated
network calls issued so far, and whether the interval is still registered. -/
structure PollSt where
  state : DashState
  callCount : Nat
  active : Bool
deriving DecidableEq, Repr

/-- Modelled from the spec: the host timer semantics of
`setInterval`/`clearInterval`, which are not part of this repository. A tick
fires the registered `fetchAnalyses` closure (mount-captured values `0`,
`true`) only while the interval is active and counts as one network call;
`clearInterval` (the effect cleanup) deactivates the interval permanently,
so later ticks fire nothing. -/
def pollStep (ty : String) (p : PollSt) (ev : PollEvent) : PollSt :=
  match ev with
  | .tick o =>
      if p.active then
        { state := fetchAnalysesStep ty 0 true o p.state, callCount := p.callCount + 1, active := true }
      else p
  | .stop => { state := p.state, callCount := p.callCount, active := false }

/-- Run the controller from mount over a sequence of events. -/
def runPollEvents (ty : String) (evs : List PollEvent) : PollSt :=
  evs.foldl (pollStep ty) { state := mountState, callCount := 0, active := true }

/-- Modelled from the spec: the instant (in milliseconds from the start of
the cycle) of the n-th fetch issued by the polling effect — one immediate
call, then one per `setInterval(fetchAnalyses, 3000)` period; the host
timer itself is not part of this repository. -/
def pollCallTime (n : Nat) : Nat := 3000 * n

/-- JS `substring(a, b)` on a string, as the chars in positions `[a, b)`. -/
def jsSubstring (s : String) (a b : Nat) : String :=
  ((s.toList.drop a).take (b - a)).asString

/-- The `formatDate` helper of the dashboard component: positional slices of
the timestamp string rendered as "YYYY/MM/DD HH:MM". -/
def formatDate (timestamp : String) : String :=
  let year := jsSubstring timestamp 0 4
  let month := jsSubstring timestamp 4 6
  let day := jsSubstring timestamp 6 8
  let hour := jsSubstring timestamp 8 10
  let minute := jsSubstring timestamp 10 12
  year ++ "/" ++ month ++ "/" ++ day ++ " " ++ hour ++ ":" ++ minute

/-- Outcome of one `handleDelete` attempt, after the confirm dialog:
the user cancelled, the DELETE succeeded, the server answered non-2xx with
an optional JSON `error` field, or the fetch itself threw. -/
inductive DeleteOutcome where
  | cancelled
  | respOk
  | respErr (errField : Option String)
  | fetchFail (e : JsError)
deriving DecidableEq, Repr

/-- The try block of `handleDelete`, acting on the `error` state field: a
non-2xx response throws `new Error(errorData.error || "Delete failed")`; a
rejected fetch rethrows its error; success leaves the error state to the
subsequent `fetchAnalyses` refresh. -/
def handleDeleteTry (o : DeleteOutcome) (err : Option String) : Except JsError (Option String) :=
  match o with
  | .cancelled => .ok err
  | .respOk => .ok err
  | .respErr ef => .error { name := "Error", message := jsOrDefault ef "Delete failed" }
  | .fetchFail e => .error e

/-- The whole of `handleDelete` as try/catch: the catch block performs
`setError("Delete failed: " + error.message)`. -/
def handleDeleteRun (o : DeleteOutcome) (err : Option String) : Except JsError (Option String) :=
  match handleDeleteTry o err with
  | .ok e1 => .ok e1
  | .error e => .ok (some ("Delete failed: " ++ e.message))

/-- The `error`-state transition of one `handleDelete` invocation. -/
def handleDeleteStep (o : DeleteOutcome) (err : Option String) : Option String :=
  match handleDeleteRun o err with
  | .ok e1 => e1
  | .error _ => err

/-- Outcome of one rerun request inside `handleRerunAnalysis`: no auth token,
a 2xx response, a non-2xx response with an optional JSON `error` field, the
10-second AbortController timeout firing (`AbortError`), or another fetch
error. -/
inductive RerunOutcome where
  | noToken
  | respOk
  | respErr (errField : Option String)
  | abort
  | fetchFail (e : JsError)
deriving DecidableEq, Repr

/-- The user-visible result of `handleRerunAnalysis`: the `error` state it
leaves (it runs `setError(null)` first), the `alert` message it shows, and
the `loading` flag after the `finally` block. -/
structure RerunResult where
  error : Option String
  alertMsg : Option String
  loading : Bool
deriving DecidableEq, Repr

/-- The success alert of `handleRerunAnalysis`. -/
def rerunSuccessMsg : String :=
  "Analysis rerun started successfully! The analysis will be processed in the background and may take several minutes."

/-- The informational alert shown when the rerun request hits the 10-second
client-side timeout. -/
def rerunInitiatedMsg : String :=
  "Analysis rerun has been initiated. It may take several minutes to complete. Please refresh if you don\x27t see updates."

/-- The body of `handleRerunAnalysis` up to and including the inner catch:
a missing token throws; a 2xx response alerts success; a non-2xx response
throws `new Error(data.error || "Failed to rerun analysis")` (name "Error",
so the inner catch rethrows it); an `AbortError` is handled by the inner
catch with the informational alert; any other fetch error is rethrown. -/
def rerunTryBody (o : RerunOutcome) : Except JsError (Option String) :=
  match o with
  | .noToken => .error { name := "Error", message := "Authentication required" }
  | .respOk => .ok (some rerunSuccessMsg)
  | .respErr ef => .error { name := "Error", message := jsOrDefault ef "Failed to rerun analysis" }
  | .abort => .ok (some rerunInitiatedMsg)
  | .fetchFail e => .error e

/-- The message chosen by the outer catch of `handleRerunAnalysis`. -/
def rerunCatchMsg (m : String) : String :=
  if containsSub m "Failed to fetch" || containsSub m "NetworkError" then
    "Failed to rerun analysis: Server connection lost. The backend may have crashed. Please check server logs and restart the backend."
  else
    "Failed to rerun analysis: " ++ m

/-- The whole of `handleRerunAnalysis` as try/catch: it starts with
`setError(null)`, ends with the `finally` block clearing `loading`; the
outer catch converts any thrown error into the error state via
`rerunCatchMsg`. -/
def handleRerunRun (o : RerunOutcome) : Except JsError RerunResult :=
  match rerunTryBody o with
  | .ok alert => .ok { error := none, alertMsg := alert, loading := false }
  | .error e => .ok { error := some (rerunCatchMsg e.message), alertMsg := none, loading := false }

/-- The user-visible result of one `handleRerunAnalysis` invocation (the
handler never rethrows, so the fallback branch is unreachable). -/
def handleRerunAnalysis (o : RerunOutcome) : RerunResult :=
  match handleRerunRun o with
  | .ok r => r
  | .error _ => { error := none, alertMsg := none, loading := false }

/-- Whether a handler-as-Except result represents completion without an
uncaught exception. -/
def exceptOk : Except JsError α → Bool
  | .ok _ => true
  | .error _ => false

/-- The search filter of `filteredAndSortedAnalyses`:
`a.dance_type?.toLowerCase().includes(q.toLowerCase()) || a.dancers?.toLowerCase().includes(q.toLowerCase())`
(both fields are declared `string`, so the optional chaining never
short-circuits). -/
def matchesSearch (q : String) (a : Analysis) : Bool :=
  containsSub a.dance_type.toLower q.toLower || containsSub a.dancers.toLower q.toLower

/-- Code-unit lexicographic "less or equal" on char lists. This models
`x.localeCompare(y) <= 0` for the fixed-width ASCII-digit timestamps the
component compares (locale collation coincides with code-unit order there). -/
def lexLe : List Char → List Char → Bool
  | [], _ => true
  | _ :: _, [] => false
  | a :: as, b :: bs => if a = b then lexLe as bs else decide (a < b)

/-- The comparator passed to `.sort`: descending order puts `x` before `y`
when `y.timestamp.localeCompare(x.timestamp) <= 0`, ascending the reverse. -/
def timestampCmp (sortOrder : String) (x y : Analysis) : Bool :=
  if sortOrder == "desc" then lexLe y.timestamp.toList x.timestamp.toList
  else lexLe x.timestamp.toList y.timestamp.toList

/-- The view pipeline `filteredAndSortedAnalyses`: the stored list filtered
by the search term, then sorted by the timestamp comparator (JS
`Array.prototype.sort` with a consistent comparator, modelled as a merge
sort). -/
def filteredAndSortedAnalyses (analyses : List Analysis) (q sortOrder : String) : List Analysis :=
  (analyses.filter (matchesSearch q)).mergeSort (timestampCmp sortOrder)

/-- A sample "solo" entry, as in the mixed-category response scenario. -/
def demoSolo : Analysis :=
  { id := "a", timestamp := "202501010101", dance_type := "ballet",
    dancers := "Dancer: A", analysis_type := some "solo", processed := false }

/-- A sample "couple" entry, as in the mixed-category response scenario. -/
def demoCouple : Analysis :=
  { id := "b", timestamp := "202501020202", dance_type := "waltz",
    dancers := "Man: B, Lady: C", analysis_type := some "couple", processed := true }

/-- A mixed-category backend response. -/
def demoData : List Analysis := [demoSolo, demoCouple]

/-- Helper: per-entry characterization of the defensive filter predicate of
`fetchAnalyses`, for a nonempty selected category. -/
theorem keepByType_iff (ty : String) (hty : ty ≠ "") (a : Analysis) :
    (jsStrEq a.analysis_type ty || (ty == "couple" && jsStrFalsy a.analysis_type)) = true ↔
      effectiveCategory a = ty := by
  unfold effectiveCategory
  cases h : a.analysis_type with
  | none =>
      show (false || (ty == "couple" && true)) = true ↔ ("couple" : String) = ty
      simp only [Bool.false_or, Bool.and_true, beq_iff_eq]
      exact eq_comm
  | some s =>
      by_cases hs : s = ""
      · subst hs
        have h2 : (("" : String) == ty) = false := by
          cases hb : ("" : String) == ty with
          | true => exact absurd (beq_iff_eq.mp hb).symm hty
          | false => rfl
        have hE : jsStrFalsy (some "") = true := rfl
        rw [jsStrEq, hE, h2]
        simp only [Bool.false_or, Bool.and_true, if_pos rfl, beq_iff_eq]
        exact eq_comm
      · have hne : s.isEmpty = false := by
          cases hEmpty : s.isEmpty with
          | true => exact absurd (String.isEmpty_iff s |>.mp hEmpty) hs
          | false => rfl
        simp [jsStrEq, jsStrFalsy, hne]

/-- Helper: once the interval has been cleared, the controller state never
changes again, whatever further events arrive. -/
theorem foldl_pollStep_inactive (ty : String) (suf : List PollEvent) :
    ∀ st c, suf.foldl (pollStep ty) ⟨st, c, false⟩ = ⟨st, c, false⟩ := by
  induction suf with
  | nil => intro st c; rfl
  | cons ev t ih =>
      intro st c
      cases ev with
      | tick o => exact ih st c
      | stop => exact ih st c

/-- Helper: while the interval is active, every tick fires exactly one
`fetchAnalyses` call with the mount-captured closure values. -/
theorem foldl_pollStep_ticks (ty : String) (os : List FetchOutcome) :
    ∀ st c, List.foldl (pollStep ty) ⟨st, c, true⟩ (os.map PollEvent.tick) =
      ⟨os.foldl (fun s o => fetchAnalysesStep ty 0 true o s) st, c + os.length, true⟩ := by
  induction os with
  | nil => intro st c; rfl
  | cons o t ih =>
      intro st c
      rw [List.map_cons, List.foldl_cons]
      show List.foldl (pollStep ty) ⟨fetchAnalysesStep ty 0 true o st, c + 1, true⟩
          (t.map PollEvent.tick) = _
      rw [ih (fetchAnalysesStep ty 0 true o st) (c + 1)]
      congr 1
      simp only [List.length_cons]
      omega

/-- Helper: `lexLe` is total. -/
theorem lexLe_total (as : List Char) : ∀ bs : List Char, (lexLe as bs || lexLe bs as) = true := by
  induction as with
  | nil => intro bs; cases bs <;> rfl
  | cons a as ih =>
      intro bs
      cases bs with
      | nil => rfl
      | cons b bs =>
          by_cases hab : a = b
          · subst hab
            simpa [lexLe] using ih bs
          · have hba : ¬ b = a := fun h => hab h.symm
            simp only [lexLe, if_neg hab, if_neg hba, Bool.or_eq_true, decide_eq_true_eq]
            exact lt_or_gt_of_ne hab

/-- Helper: `lexLe` is transitive. -/
theorem lexLe_trans (as : List Char) : ∀ bs cs : List Char,
    lexLe as bs = true → lexLe bs cs = true → lexLe as cs = true := by
  induction as with
  | nil => intro bs cs _ _; rfl
  | cons a as ih =>
      intro bs cs h1 h2
      cases bs with
      | nil => simp [lexLe] at h1
      | cons b bs =>
          cases cs with
          | nil => simp [lexLe] at h2
          | cons c cs =>
              by_cases hab : a = b <;> by_cases hbc : b = c
              · subst hab; subst hbc
                simp only [lexLe, if_pos rfl] at h1 h2 ⊢
                exact ih bs cs h1 h2
              · subst hab
                simp only [lexLe, if_neg hbc] at h2 ⊢
                exact h2
              · subst hbc
                simp only [lexLe, if_neg hab] at h1 ⊢
                exact h1
              · have h1a : a < b := by simpa [lexLe, hab] using h1
                have h2a : b < c := by simpa [lexLe, hbc] using h2
                have hac : a < c := lt_trans h1a h2a
                simp [lexLe, ne_of_lt hac, hac]

/-- Helper: the timestamp comparator is transitive for each sort order. -/
theorem timestampCmp_trans (so : String) (x y z : Analysis)
    (h1 : timestampCmp so x y = true) (h2 : timestampCmp so y z = true) :
    timestampCmp so x z = true := by
  unfold timestampCmp at h1 h2 ⊢
  by_cases h : (so == "desc") = true
  · simp only [h, if_pos rfl, if_true] at h1 h2 ⊢
    exact lexLe_trans _ _ _ h2 h1
  · simp only [eq_false_of_ne_true h, if_false, Bool.false_eq_true] at h1 h2 ⊢
    exact lexLe_trans _ _ _ h1 h2

/-- Helper: the timestamp comparator is total for each sort order. -/
theorem timestampCmp_total (so : String) (x y : Analysis) :
    (timestampCmp so x y || timestampCmp so y x) = true := by
  unfold timestampCmp
  by_cases h : (so == "desc") = true
  · simp only [h, if_true]
    exact lexLe_total y.timestamp.toList x.timestamp.toList
  · simp only [eq_false_of_ne_true h, if_false, Bool.false_eq_true]
    exact lexLe_total x.timestamp.toList y.timestamp.toList

/-- C1: evaluation at the failing input. The claim says the connectivity
flag becomes false exactly when at least 3 consecutive fetch failures have
occurred since the last success, but after three consecutive failures of
the polling cycle started at mount the live state holds
`consecutiveFailures = 3` while `serverConnected` is still `true`: the
threshold check reads the closure-captured counter (0 at mount), never the
incremented live value, so the timer-driven cycle can never set the flag
to false. -/
theorem pollRun_three_failures_still_connected :
    (pollRun "couple" [.failure ⟨"TypeError", "Failed to fetch"⟩,
        .failure ⟨"TypeError", "Failed to fetch"⟩,
        .failure ⟨"TypeError", "Failed to fetch"⟩]).consecutiveFailures = 3 ∧
    (pollRun "couple" [.failure ⟨"TypeError", "Failed to fetch"⟩,
        .failure ⟨"TypeError", "Failed to fetch"⟩,
        .failure ⟨"TypeError", "Failed to fetch"⟩]).serverConnected = true :=
  ⟨rfl, rfl⟩

/-- C2: from any prior counter, flag and error state, and whatever values
the handler closure captured, a single successful `fetchAnalyses` call
resets the failure counter to 0, sets the connected flag to true, and
clears the error message. -/
theorem fetchAnalyses_success_resets (ty : String) (cf : Nat) (cc : Bool)
    (data : List Analysis) (s : DashState) :
    (fetchAnalysesStep ty cf cc (.success data) s).consecutiveFailures = 0 ∧
    (fetchAnalysesStep ty cf cc (.success data) s).serverConnected = true ∧
    (fetchAnalysesStep ty cf cc (.success data) s).error = none :=
  ⟨rfl, rfl, rfl⟩

/-- C3: for any backend response, an entry is stored in the displayed list
by a successful `fetchAnalyses` exactly when it came from the response and
its category — with a missing (falsy) `analysis_type` counting as the
default category "couple" — equals the currently selected category. -/
theorem fetchAnalyses_filter_category (ty : String)
    (hty : ty = "couple" ∨ ty = "solo" ∨ ty = "duo" ∨ ty = "formation")
    (data : List Analysis) (cf : Nat) (cc : Bool) (s : DashState) (a : Analysis) :
    a ∈ (fetchAnalysesStep ty cf cc (.success data) s).analyses ↔
      a ∈ data ∧ effectiveCategory a = ty := by
  have hne : ty ≠ "" := by rcases hty with h | h | h | h <;> subst h <;> decide
  show a ∈ filterByType ty data ↔ _
  rw [filterByType, List.mem_filter]
  exact and_congr_right fun _ => keepByType_iff ty hne a

/-- Witness for C3: the mixed-category response scenario with the "solo"
category selected. -/
theorem fetchAnalyses_filter_category_witness :
    ("solo" = "couple" ∨ "solo" = "solo" ∨ "solo" = "duo" ∨ "solo" = "formation") ∧
    (demoSolo ∈ (fetchAnalysesStep "solo" 0 true (.success demoData) mountState).analyses ↔
      demoSolo ∈ demoData ∧ effectiveCategory demoSolo = "solo") :=
  ⟨Or.inr (Or.inl rfl),
   fetchAnalyses_filter_category "solo" (Or.inr (Or.inl rfl)) demoData 0 true mountState demoSolo⟩

/-- C4: on a fetch failure, `fetchAnalyses` surfaces the derived error
message via `setError` exactly when the `serverConnected` flag the handler
reads is false; while that flag is still true, the failure leaves the error
state untouched (no visible error). -/
theorem fetchAnalyses_failure_error_iff_disconnected (ty : String) (cf : Nat) (cc : Bool)
    (e : JsError) (s : DashState) :
    (fetchAnalysesStep ty cf cc (.failure e) s).error =
      (if cc then s.error else some (errorMessageFor e)) := by
  show (fetchAnalysesCatch cf cc e s).error = _
  unfold fetchAnalysesCatch
  cases cc <;> by_cases h : cf ≥ 2 <;> simp [h]

/-- C5: once the effect cleanup has run `clearInterval`, the timer issues
no further `fetchAnalyses` calls — whatever events come after the stop, the
count of timer-initiated network calls stays what it was at the stop. -/
theorem stopPolling_freezes_call_count (ty : String) (pre suf : List PollEvent) :
    (runPollEvents ty (pre ++ PollEvent.stop :: suf)).callCount =
      (runPollEvents ty (pre ++ [PollEvent.stop])).callCount := by
  have hfix : ∀ p : PollSt,
      List.foldl (pollStep ty) (pollStep ty p PollEvent.stop) suf = pollStep ty p PollEvent.stop :=
    fun p => foldl_pollStep_inactive ty suf p.state p.callCount
  unfold runPollEvents
  simp only [List.foldl_append, List.foldl_cons, List.foldl_nil]
  rw [hfix]

/-- C6: for every timestamp of at least 12 characters (written as 12 chars
followed by an arbitrary tail), `formatDate` returns exactly the string
assembled from the positional slices 0-3, 4-5, 6-7, 8-9 and 10-11 rendered
as "YYYY/MM/DD HH:MM". -/
theorem formatDate_positional_slices
    (c0 c1 c2 c3 c4 c5 c6 c7 c8 c9 c10 c11 : Char) (rest : List Char) :
    formatDate (String.mk (c0 :: c1 :: c2 :: c3 :: c4 :: c5 :: c6 :: c7 ::
        c8 :: c9 :: c10 :: c11 :: rest)) =
      String.mk [c0, c1, c2, c3, '/', c4, c5, '/', c6, c7, ' ', c8, c9, ':', c10, c11] :=
  rfl

/-- C7: a rerun request aborted by the 10-second client-side timeout ends
with the informational "initiated" alert and no error state; every
non-abort failure outcome (missing token, non-2xx response, other fetch
error) does set an error message. -/
theorem handleRerun_abort_informational (ef : Option String) (e : JsError) :
    (handleRerunAnalysis .abort).alertMsg = some rerunInitiatedMsg ∧
    (handleRerunAnalysis .abort).error = none ∧
    (handleRerunAnalysis .noToken).error.isSome = true ∧
    (handleRerunAnalysis (.respErr ef)).error.isSome = true ∧
    (handleRerunAnalysis (.fetchFail e)).error.isSome = true :=
  ⟨rfl, rfl, rfl, rfl, rfl⟩

/-- C8: while the controller runs unstopped, every tick issues exactly one
fetch (so the cycle keeps its fixed cadence with no backoff), the first
call happens immediately at time 0, and consecutive timer calls are exactly
3000 ms apart. -/
theorem polling_immediate_then_fixed_cadence (ty : String) (os : List FetchOutcome) (n : Nat) :
    (runPollEvents ty (os.map PollEvent.tick)).callCount = os.length ∧
    pollCallTime 0 = 0 ∧ pollCallTime (n + 1) = pollCallTime n + 3000 := by
  refine ⟨?_, rfl, ?_⟩
  · unfold runPollEvents
    rw [foldl_pollStep_ticks ty os mountState 0]
    exact Nat.zero_add _
  · unfold pollCallTime
    omega

/-- C9: every outcome of a network call made by `fetchAnalyses`,
`handleDelete` or `handleRerunAnalysis` is caught by the handler and
converted to local UI state — no outcome makes an exception escape
uncaught (each handler, run as try/catch, always returns `.ok`). -/
theorem handlers_catch_all_errors (ty : String) (cf : Nat) (cc : Bool) (o1 : FetchOutcome)
    (s : DashState) (o2 : DeleteOutcome) (err : Option String) (o3 : RerunOutcome) :
    exceptOk (fetchAnalysesRun ty cf cc o1 s) = true ∧
    exceptOk (handleDeleteRun o2 err) = true ∧
    exceptOk (handleRerunRun o3) = true := by
  refine ⟨?_, ?_, ?_⟩
  · cases o1 <;> rfl
  · cases o2 <;> rfl
  · cases o3 <;> rfl

/-- C10: the rendered list holds exactly the stored entries whose
`dance_type` or `dancers` contains the search term case-insensitively, and
it is ordered by code-unit lexicographic comparison of the timestamp
strings — descending when the sort order is "desc", ascending when it is
"asc". -/
theorem filteredAndSortedAnalyses_spec (analyses : List Analysis) (q so : String) (a : Analysis) :
    (a ∈ filteredAndSortedAnalyses analyses q so ↔
      a ∈ analyses ∧ matchesSearch q a = true) ∧
    (filteredAndSortedAnalyses analyses q "desc").Pairwise
      (fun x y => lexLe y.timestamp.toList x.timestamp.toList = true) ∧
    (filteredAndSortedAnalyses analyses q "asc").Pairwise
      (fun x y => lexLe x.timestamp.toList y.timestamp.toList = true) := by
  refine ⟨?_, ?_, ?_⟩
  · rw [filteredAndSortedAnalyses, List.mem_mergeSort, List.mem_filter]
  · have h := @List.sorted_mergeSort Analysis (timestampCmp "desc")
      (fun x y z => timestampCmp_trans "desc" x y z)
      (fun x y => timestampCmp_total "desc" x y)
      (analyses.filter (matchesSearch q))
    refine h.imp ?_
    intro x y hxy
    simpa [timestampCmp] using hxy
  · have h := @List.sorted_mergeSort Analysis (timestampCmp "asc")
      (fun x y z => timestampCmp_trans "asc" x y z)
      (fun x y => timestampCmp_total "asc" x y)
      (analyses.filter (matchesSearch q))
    refine h.imp ?_
    intro x y hxy
    simpa [timestampCmp] using hxy
